import Mathlib

/-!
Shallow embedding of the GEO audit tool's scoring engine.

The analyzed program is a web-page audit: `POST /api/analyze` fetches a page,
runs a fixed battery of heuristic checks over the parsed HTML plus optional
third-party SEO metrics, and aggregates the results into an `Analysis` record
(overall score, grade, per-check results, summary counts).

The embedding models the check evaluator and score aggregator from
`src/app/api/analyze/route.ts`, the second grading scheme from the
send-report route, and the error-classification catch block.  HTML parsing
(cheerio) is an external collaborator: the document is represented by the
record of features the evaluator extracts from it (one field per local
variable computed in the route before the checks run).  JavaScript numbers
appearing in the metrics record are modelled as integers; `Math.round` over
an exact quotient `n / d` is modelled by `roundDiv`, proved below to be
floor(n/d + 1/2), which is JavaScript's round-half-up on exact values.
-/

namespace GeoAudit

/-- Math.round of the exact quotient `n / d` (for `0 < d`): JavaScript
rounds half toward positive infinity, i.e. floor(n/d + 1/2), which over the
integers is the floor division `(2*n + d) fdiv (2*d)`. -/
def roundDiv (n d : ℤ) : ℤ := Int.fdiv (2 * n + d) (2 * d)

/-- JavaScript truthiness of an optional numeric value (the source guards
several metric fields with a bare `value ?` test): defined and non-zero. -/
def truthy : Option ℤ → Bool
  | none => false
  | some v => v != 0

/-- JavaScript `String.prototype.startsWith`, computed on the character
lists of the two strings. -/
def strStartsWith (s pre : String) : Bool := pre.data.isPrefixOf s.data

/-- Whether `pat` occurs as a contiguous run inside `l`. -/
def listInfixOf [BEq α] (pat : List α) : List α → Bool
  | [] => pat.isPrefixOf []
  | x :: xs => pat.isPrefixOf (x :: xs) || listInfixOf pat xs

/-- JavaScript `String.prototype.includes`: `s` contains `pat` as a
substring. -/
def jsIncludes (s pat : String) : Bool := listInfixOf pat.data s.data

/-- The `x ? undefined : msg` pattern used for every HTML-only check's
recommendation field: absent exactly when the flag holds. -/
def recUnless (b : Bool) (msg : String) : Option String :=
  if b then none else some msg

/-- One rubric item (interface `GEOCheck` in the source). -/
structure Check where
  name : String
  category : String
  passed : Bool
  score : ℤ
  maxScore : ℤ
  details : String
  recommendation : Option String
deriving Repr, DecidableEq

/-- The summary block of an analysis. -/
structure Summary where
  passed : ℕ
  failed : ℕ
  warnings : ℕ
deriving Repr, DecidableEq

/-- The flat metrics record produced by the DataForSEO adapter
(interface `DataForSEOMetrics` in `src/lib/dataforseo.ts`; the
`topKeywords` list and `error` string play no role in scoring and are
omitted).  Numeric fields are optional: each sub-request soft-fails to
"no data". -/
structure SeoMetrics where
  domainRank : Option ℤ
  organicTraffic : Option ℤ
  organicKeywords : Option ℤ
  onPageScore : Option ℤ
  pageLoadTime : Option ℤ
  available : Bool
deriving Repr, DecidableEq

/-- The features the evaluator extracts from the fetched HTML document.
Each field corresponds to one local variable computed from the cheerio
document in `route.ts` before the corresponding `checks.push` call; the
parsing itself (selectors and regular expressions) is outside the model. -/
structure Doc where
  /-- at least one parseable `application/ld+json` block was found -/
  hasSchema : Bool
  /-- the `@type` values collected from all parsed JSON-LD blocks -/
  schemaTypes : List String
  /-- texts of h1-h3 headings that contain `?` or start with a question word -/
  questionHeadings : List String
  h1Count : ℕ
  h2Count : ℕ
  h3Count : ℕ
  /-- number of `ul li` plus `ol li` elements -/
  listItemCount : ℕ
  /-- number of `ol li` elements (used by the step-by-step check) -/
  olListItemCount : ℕ
  /-- character lengths of the `p` texts longer than 20 characters -/
  paragraphLengths : List ℕ
  hasTOC : Bool
  hasKeyTakeaways : Bool
  hasAuthorName : Bool
  hasAuthorBio : Bool
  /-- number of `a[href^="http"]` links whose hostname differs from the page -/
  externalLinks : ℕ
  hasDate : Bool
  metaDescription : String
  pageTitle : String
  hasViewport : Bool
  hasCanonical : Bool
  hasDefinitions : Bool
  /-- the body-text regex half of the step-by-step check -/
  hasStepsPattern : Bool
  hasStatistics : Bool
deriving Repr, DecidableEq

/-- URL normalization at the top of the POST handler: prefix `https://`
when no scheme is present. -/
def normalizeUrl (url : String) : String :=
  if !(strStartsWith url "http://") && !(strStartsWith url "https://") then
    "https://" ++ url
  else
    url

/-- The 21 HTML-only checks, in the order the route pushes them
(schema markup, content structure, E-E-A-T signals, meta and technical,
AI snippet optimization).  `normalizedUrl` is the scheme-prefixed URL; the
HTTPS check reads its scheme.  Average paragraph length is an exact
rational in the source (`sum / count`); its comparisons with 0, 500 and
700 are expressed here by cross-multiplication, and `Math.round` of the
average is `roundDiv sum count`. -/
def htmlChecks (d : Doc) (normalizedUrl : String) : List Check :=
  let joined := String.intercalate ", " d.schemaTypes
  let joinedOrUnknown := if joined == "" then "Unknown" else joined
  let hasFAQSchema := d.schemaTypes.any (fun t => jsIncludes t.toLower "faq")
  let hasArticleSchema := d.schemaTypes.any (fun t =>
    ["article", "newsarticle", "blogposting", "howto"].contains t.toLower)
  let hasAuthorSchema := d.schemaTypes.any (fun t =>
    ["person", "author", "organization"].contains t.toLower)
  let qn := d.questionHeadings.length
  let hasQuestionHeadings := decide (2 ≤ qn)
  let qPreview := String.intercalate "\", \"" (d.questionHeadings.take 3)
  let qSuffix := if 3 < qn then "..." else ""
  let h1 := d.h1Count
  let h2 := d.h2Count
  let h3 := d.h3Count
  let hasGoodHeadingStructure := (h1 == 1) && decide (2 ≤ h2)
  let li := d.listItemCount
  let hasLists := decide (3 ≤ li)
  let pLen := d.paragraphLengths.length
  let pSum := d.paragraphLengths.sum
  let avgRounded := roundDiv (pSum : ℤ) (pLen : ℤ)
  let hasGoodParagraphLength :=
    decide (0 < pLen) && decide (0 < pSum) && decide (pSum < 500 * pLen)
  let avgBelow700 := (pLen == 0) || decide (pSum < 700 * pLen)
  let ext := d.externalLinks
  let hasExternalCitations := decide (2 ≤ ext)
  let mdLen := d.metaDescription.length
  let mdPreview := d.metaDescription.take 80
  let hasGoodMetaDescription := decide (120 ≤ mdLen) && decide (mdLen ≤ 160)
  let tLen := d.pageTitle.length
  let title := d.pageTitle
  let hasGoodTitle := decide (30 ≤ tLen) && decide (tLen ≤ 60)
  let isHTTPS := strStartsWith normalizedUrl "https://"
  let hasSteps := d.hasStepsPattern || decide (3 ≤ d.olListItemCount)
  [ { name := "JSON-LD Schema Present"
      category := "Schema Markup"
      passed := d.hasSchema
      score := if d.hasSchema then 8 else 0
      maxScore := 8
      details := if d.hasSchema then s!"Found schema types: {joinedOrUnknown}"
        else "No JSON-LD structured data found"
      recommendation := recUnless d.hasSchema
        "Add JSON-LD schema markup to help AI understand your content structure" },
    { name := "FAQ Schema"
      category := "Schema Markup"
      passed := hasFAQSchema
      score := if hasFAQSchema then 7 else 0
      maxScore := 7
      details := if hasFAQSchema then "FAQPage schema detected - excellent for AI Overviews"
        else "No FAQ schema found"
      recommendation := recUnless hasFAQSchema
        "Add FAQPage schema to increase chances of appearing in AI-generated answers" },
    { name := "Article/HowTo Schema"
      category := "Schema Markup"
      passed := hasArticleSchema
      score := if hasArticleSchema then 5 else 0
      maxScore := 5
      details := if hasArticleSchema then "Article or HowTo schema detected"
        else "No Article/HowTo schema found"
      recommendation := recUnless hasArticleSchema
        "Add Article or HowTo schema for better content classification" },
    { name := "Author/Organization Schema"
      category := "Schema Markup"
      passed := hasAuthorSchema
      score := if hasAuthorSchema then 5 else 0
      maxScore := 5
      details := if hasAuthorSchema then "Person/Organization schema detected - supports E-E-A-T"
        else "No author or organization schema found"
      recommendation := recUnless hasAuthorSchema
        "Add Person or Organization schema to establish authorship and credibility" },
    { name := "Question-Based Headings"
      category := "Content Structure"
      passed := hasQuestionHeadings
      score := if hasQuestionHeadings then 8 else if 0 < qn then 4 else 0
      maxScore := 8
      details := s!"Found {qn} question-based headings" ++
        (if 0 < qn then s!": \"{qPreview}\"{qSuffix}" else "")
      recommendation := recUnless hasQuestionHeadings
        "Use question-based H2 headings that match user search queries (e.g., \"What is GEO?\", \"How does it work?\")" },
    { name := "Heading Hierarchy"
      category := "Content Structure"
      passed := hasGoodHeadingStructure
      score := if hasGoodHeadingStructure then 5 else if h1 == 1 then 3 else 0
      maxScore := 5
      details := s!"H1: {h1}, H2: {h2}, H3: {h3}"
      recommendation := recUnless hasGoodHeadingStructure
        "Use exactly one H1 and multiple H2s to create clear content sections" },
    { name := "Structured Lists"
      category := "Content Structure"
      passed := hasLists
      score := if hasLists then 5 else 0
      maxScore := 5
      details := s!"Found {li} list items"
      recommendation := recUnless hasLists
        "Use bullet points and numbered lists to make content scannable for AI" },
    { name := "Paragraph Length"
      category := "Content Structure"
      passed := hasGoodParagraphLength
      score := if hasGoodParagraphLength then 4 else if avgBelow700 then 2 else 0
      maxScore := 4
      details := s!"Average paragraph: {avgRounded} characters ({pLen} paragraphs)"
      recommendation := recUnless hasGoodParagraphLength
        "Keep paragraphs under 3-4 sentences for better AI parsing" },
    { name := "Quick Summary / Key Takeaways"
      category := "Content Structure"
      passed := d.hasTOC || d.hasKeyTakeaways
      score := if d.hasTOC || d.hasKeyTakeaways then 3 else 0
      maxScore := 3
      details := if d.hasTOC || d.hasKeyTakeaways then "Summary or key takeaways section detected"
        else "No quick summary or key takeaways found"
      recommendation := recUnless (d.hasTOC || d.hasKeyTakeaways)
        "Add a \"Key Takeaways\" or summary section at the top for AI to extract" },
    { name := "Author Attribution"
      category := "E-E-A-T Signals"
      passed := d.hasAuthorName
      score := if d.hasAuthorName then 5 else 0
      maxScore := 5
      details := if d.hasAuthorName then "Author attribution detected"
        else "No clear author attribution found"
      recommendation := recUnless d.hasAuthorName
        "Add visible author name with \"Written by\" or author byline" },
    { name := "Author Bio/Credentials"
      category := "E-E-A-T Signals"
      passed := d.hasAuthorBio
      score := if d.hasAuthorBio then 5 else 0
      maxScore := 5
      details := if d.hasAuthorBio then "Author bio or credentials detected"
        else "No author bio found"
      recommendation := recUnless d.hasAuthorBio
        "Add an author bio with credentials and expertise to build trust" },
    { name := "External Citations"
      category := "E-E-A-T Signals"
      passed := hasExternalCitations
      score := if hasExternalCitations then 5 else if 0 < ext then 2 else 0
      maxScore := 5
      details := s!"Found {ext} external links"
      recommendation := recUnless hasExternalCitations
        "Cite reputable external sources to demonstrate research and credibility" },
    { name := "Publication Date"
      category := "E-E-A-T Signals"
      passed := d.hasDate
      score := if d.hasDate then 5 else 0
      maxScore := 5
      details := if d.hasDate then "Publication or update date detected"
        else "No visible date found"
      recommendation := recUnless d.hasDate
        "Add visible publication and last updated dates to show content freshness" },
    { name := "Meta Description"
      category := "Meta & Technical"
      passed := hasGoodMetaDescription
      score := if hasGoodMetaDescription then 4 else if 0 < mdLen then 2 else 0
      maxScore := 4
      details := if d.metaDescription == "" then "No meta description found"
        else s!"{mdLen} characters: \"{mdPreview}...\""
      recommendation := recUnless hasGoodMetaDescription
        "Add a compelling meta description between 120-160 characters" },
    { name := "Page Title Optimization"
      category := "Meta & Technical"
      passed := hasGoodTitle
      score := if hasGoodTitle then 4 else if 0 < tLen then 2 else 0
      maxScore := 4
      details := if d.pageTitle == "" then "No title tag found"
        else s!"{tLen} chars: \"{title}\""
      recommendation := recUnless hasGoodTitle
        "Optimize title tag to 30-60 characters with primary keyword" },
    { name := "Mobile Viewport"
      category := "Meta & Technical"
      passed := d.hasViewport
      score := if d.hasViewport then 3 else 0
      maxScore := 3
      details := if d.hasViewport then "Mobile viewport meta tag present"
        else "No mobile viewport tag found"
      recommendation := recUnless d.hasViewport
        "Add viewport meta tag for mobile responsiveness" },
    { name := "Canonical URL"
      category := "Meta & Technical"
      passed := d.hasCanonical
      score := if d.hasCanonical then 2 else 0
      maxScore := 2
      details := if d.hasCanonical then "Canonical URL specified"
        else "No canonical URL found"
      recommendation := recUnless d.hasCanonical
        "Add canonical URL to prevent duplicate content issues" },
    { name := "HTTPS Security"
      category := "Meta & Technical"
      passed := isHTTPS
      score := if isHTTPS then 2 else 0
      maxScore := 2
      details := if isHTTPS then "Site is served over HTTPS"
        else "Site is not using HTTPS"
      recommendation := recUnless isHTTPS
        "Enable HTTPS for security and SEO benefits" },
    { name := "Definition-Style Content"
      category := "AI Snippet Optimization"
      passed := d.hasDefinitions
      score := if d.hasDefinitions then 5 else 0
      maxScore := 5
      details := if d.hasDefinitions then "Definition-style sentences found - good for AI extraction"
        else "No clear definitions found"
      recommendation := recUnless d.hasDefinitions
        "Include clear definitions that AI can quote (e.g., \"GEO is the practice of...\")" },
    { name := "Step-by-Step Instructions"
      category := "AI Snippet Optimization"
      passed := hasSteps
      score := if hasSteps then 5 else 0
      maxScore := 5
      details := if hasSteps then "Step-by-step or numbered instructions detected"
        else "No step-by-step content found"
      recommendation := recUnless hasSteps
        "Structure how-to content with numbered steps for featured snippets" },
    { name := "Statistics & Data Points"
      category := "AI Snippet Optimization"
      passed := d.hasStatistics
      score := if d.hasStatistics then 5 else 0
      maxScore := 5
      details := if d.hasStatistics then "Statistics or data points found - quotable by AI"
        else "No statistics or specific data found"
      recommendation := recUnless d.hasStatistics
        "Include specific statistics and data points that AI can cite" } ]

/-- The Domain Authority score: `domainRank ? Math.min(5, Math.round(domainRank / 200)) : 0`.
The guard is JavaScript truthiness, so an undefined or zero rank scores 0. -/
def domainScore (dr : Option ℤ) : ℤ :=
  if truthy dr then min 5 (roundDiv (dr.getD 0) 200) else 0

/-- The Domain Authority check, pushed unconditionally inside the
`if (seoMetrics?.available)` block.  `toLocaleString` in the details is
modelled by plain decimal rendering. -/
def domainCheck (m : SeoMetrics) : Check :=
  let dScore := domainScore m.domainRank
  let rank := m.domainRank.getD 0
  { name := "Domain Authority"
    category := "E-E-A-T Signals"
    passed := decide (3 ≤ dScore)
    score := dScore
    maxScore := 5
    details := if truthy m.domainRank then s!"Domain rank: {rank} (higher is better)"
      else "Unable to determine domain rank"
    recommendation := if dScore < 3 then
        some "Build quality backlinks and create valuable content to improve domain authority"
      else none }

/-- The Organic Search Visibility check, pushed unconditionally inside the
`if (seoMetrics?.available)` block.  The score guard is JavaScript
truthiness (`organicKeywords ?`) while `passed` and the details test
`!== undefined`. -/
def organicCheck (m : SeoMetrics) : Check :=
  let organicKeywords := m.organicKeywords
  let k := organicKeywords.getD 0
  let hasOrganicVisibility := organicKeywords.isSome && decide (100 < k)
  let visibilityScore : ℤ :=
    if truthy organicKeywords then
      if 1000 < k then 5 else if 500 < k then 4 else if 100 < k then 3
      else if 10 < k then 2 else 1
    else 0
  { name := "Organic Search Visibility"
    category := "E-E-A-T Signals"
    passed := hasOrganicVisibility
    score := visibilityScore
    maxScore := 5
    details := if organicKeywords.isSome then s!"Ranking for {k} keywords organically"
      else "Unable to determine organic visibility"
    recommendation := if !hasOrganicVisibility then
        some "Create more content targeting relevant keywords to increase organic visibility"
      else none }

/-- The Page Load Performance check, pushed only when `pageLoadTime` is
defined.  `toFixed(1)` in the details is modelled by integer digits of
the rounded tenths of a second. -/
def perfChecks (m : SeoMetrics) : List Check :=
  match m.pageLoadTime with
  | none => []
  | some t =>
    let hasGoodPerformance := decide (t < 3000)
    let performanceScore : ℤ :=
      if t != 0 then
        if t < 2000 then 4 else if t < 3000 then 3 else if t < 5000 then 2 else 1
      else 0
    let tenths := roundDiv t 100
    let secondsWhole := tenths / 10
    let secondsTenth := tenths % 10
    [ { name := "Page Load Performance"
        category := "Meta & Technical"
        passed := hasGoodPerformance
        score := performanceScore
        maxScore := 4
        details := s!"Time to interactive: {secondsWhole}.{secondsTenth}s"
        recommendation := if !hasGoodPerformance then
            some "Optimize images, minimize JavaScript, and use caching to improve load time"
          else none } ]

/-- The On-Page SEO Score check, pushed only when `onPageScore` is
defined. -/
def onPageChecks (m : SeoMetrics) : List Check :=
  match m.onPageScore with
  | none => []
  | some s =>
    let onPagePassed := decide (70 ≤ s)
    let onPagePoints := roundDiv s 20
    [ { name := "On-Page SEO Score"
        category := "Meta & Technical"
        passed := onPagePassed
        score := onPagePoints
        maxScore := 5
        details := s!"DataForSEO on-page score: {s}/100"
        recommendation := if !onPagePassed then
            some "Address technical SEO issues identified by the on-page analysis"
          else none } ]

/-- The checks appended inside the `if (seoMetrics?.available)` block, in
push order: Domain Authority and Organic Search Visibility are always
pushed; Page Load Performance only when `pageLoadTime` is defined; On-Page
SEO Score only when `onPageScore` is defined. -/
def metricsChecks (m : SeoMetrics) : List Check :=
  [domainCheck m, organicCheck m] ++ perfChecks m ++ onPageChecks m

/-- The full check list of one analysis: the 21 HTML-only checks, then the
metrics-dependent block when the adapter reported `available`. -/
def runChecks (d : Doc) (normalizedUrl : String) (m : Option SeoMetrics) : List Check :=
  htmlChecks d normalizedUrl ++
    (match m with
     | some mm => if mm.available then metricsChecks mm else []
     | none => [])

/-- Letter-grade bands of the analyze route (`getGrade` in `route.ts`). -/
def getGrade (percentage : ℤ) : String :=
  if percentage ≥ 90 then "A+"
  else if percentage ≥ 80 then "A"
  else if percentage ≥ 70 then "B"
  else if percentage ≥ 60 then "C"
  else if percentage ≥ 50 then "D"
  else "F"

/-- Rank of a letter grade, used to state monotonicity of the band mapping. -/
def gradeRank : String → ℕ
  | "A+" => 5
  | "A" => 4
  | "B" => 3
  | "C" => 2
  | "D" => 1
  | _ => 0

namespace SendReport

/-- Display-text grading scheme of the send-report route (`getGrade` in the
send-report source file). -/
def getGrade (percentage : ℤ) : String :=
  if percentage ≥ 90 then "Excellent"
  else if percentage ≥ 70 then "Good"
  else if percentage ≥ 40 then "Needs Work"
  else "Poor"

end SendReport

/-- The summary block: passed / failed / warnings counts exactly as the
route filters them (`failed` and `warnings` both require `!c.passed`). -/
def mkSummary (checks : List Check) : Summary :=
  { passed := (checks.filter (fun c => c.passed)).length
    failed := (checks.filter (fun c => !c.passed && c.score == 0)).length
    warnings := (checks.filter (fun c => !c.passed && decide (0 < c.score))).length }

/-- The aggregate result (interface `GEOAnalysis`). -/
structure Analysis where
  url : String
  title : String
  overallScore : ℤ
  maxScore : ℤ
  grade : String
  checks : List Check
  summary : Summary
  seoMetrics : Option SeoMetrics
deriving Repr

/-- The percentage the aggregator derives from the totals:
`Math.round((totalScore / maxScore) * 100)` over exact arithmetic. -/
def percentageOf (totalScore maxScore : ℤ) : ℤ :=
  roundDiv (totalScore * 100) maxScore

/-- Construction of the final `GEOAnalysis` object in the POST handler:
reduce the checks to score totals, derive the percentage and grade, count
the summary buckets, and echo the metrics record when available. -/
def mkAnalysis (d : Doc) (url : String) (m : Option SeoMetrics) : Analysis :=
  let normalizedUrl := normalizeUrl url
  let checks := runChecks d normalizedUrl m
  let totalScore := checks.foldl (fun acc c => acc + c.score) 0
  let maxScore := checks.foldl (fun acc c => acc + c.maxScore) 0
  let percentage := percentageOf totalScore maxScore
  { url := normalizedUrl
    title := if d.pageTitle != "" then d.pageTitle else "Untitled Page"
    overallScore := totalScore
    maxScore := maxScore
    grade := getGrade percentage
    checks := checks
    summary := mkSummary checks
    seoMetrics := match m with
      | some mm => if mm.available then some mm else none
      | none => none }

/-- The shape of a caught fetch error, as the catch block inspects it:
whether axios raised it, its error `code`, and the HTTP status of the
response if one was received. -/
structure FetchError where
  isAxiosError : Bool
  code : Option String
  responseStatus : Option ℤ
deriving Repr, DecidableEq

/-- An error reply: the JSON `error` message and the HTTP status. -/
structure ErrorReply where
  error : String
  status : ℤ
deriving Repr, DecidableEq

/-- The catch block of the analyze POST handler: classify recognized axios
failures as 400 with a specific message, everything else as a generic 500. -/
def classifyAnalyzeError (e : FetchError) : ErrorReply :=
  if e.isAxiosError then
    if e.code == some "ENOTFOUND" then
      { error := "Domain not found. Please check the URL.", status := 400 }
    else if e.responseStatus == some 403 then
      { error := "Access denied by the website. The site may be blocking automated requests.",
        status := 400 }
    else if e.responseStatus == some 404 then
      { error := "Page not found (404). Please check the URL.", status := 400 }
    else if e.code == some "ETIMEDOUT" || e.code == some "ECONNABORTED" then
      { error := "Request timed out. The website may be slow or unavailable.", status := 400 }
    else
      { error := "Failed to analyze the URL. Please try again.", status := 500 }
  else
    { error := "Failed to analyze the URL. Please try again.", status := 500 }

/-- The organic-visibility banding as the code computes it, including the
truthiness corner: a keyword count that is defined but zero scores 0,
exactly like an undefined count. -/
def organicBand : Option ℤ → ℤ
  | none => 0
  | some k =>
    if 1000 < k then 5 else if 500 < k then 4 else if 100 < k then 3
    else if 10 < k then 2 else if k == 0 then 0 else 1

/-- A document with no detected features: every boolean feature false,
every count zero, every text empty. -/
def docNil : Doc where
  hasSchema := false
  schemaTypes := []
  questionHeadings := []
  h1Count := 0
  h2Count := 0
  h3Count := 0
  listItemCount := 0
  olListItemCount := 0
  paragraphLengths := []
  hasTOC := false
  hasKeyTakeaways := false
  hasAuthorName := false
  hasAuthorBio := false
  externalLinks := 0
  hasDate := false
  metaDescription := ""
  pageTitle := ""
  hasViewport := false
  hasCanonical := false
  hasDefinitions := false
  hasStepsPattern := false
  hasStatistics := false

/-- An available metrics record whose only defined field is a domain rank
of 700. -/
def metricsRank700 : SeoMetrics where
  domainRank := some 700
  organicTraffic := none
  organicKeywords := none
  onPageScore := none
  pageLoadTime := none
  available := true

/-- An available metrics record whose only defined field is a domain rank
of 1000. -/
def metricsRank1000 : SeoMetrics where
  domainRank := some 1000
  organicTraffic := none
  organicKeywords := none
  onPageScore := none
  pageLoadTime := none
  available := true

/-- An available metrics record whose only defined field is an on-page
score of 120. -/
def metricsOnPage120 : SeoMetrics where
  domainRank := none
  organicTraffic := none
  organicKeywords := none
  onPageScore := some 120
  pageLoadTime := none
  available := true

/-- An available metrics record whose only defined field is an organic
keyword count of 0. -/
def metricsKeywords0 : SeoMetrics where
  domainRank := none
  organicTraffic := none
  organicKeywords := some 0
  onPageScore := none
  pageLoadTime := none
  available := true

/-- An available metrics record with every numeric field undefined. -/
def metricsAllUndefined : SeoMetrics where
  domainRank := none
  organicTraffic := none
  organicKeywords := none
  onPageScore := none
  pageLoadTime := none
  available := true

/-- The integer rounding `roundDiv` agrees with floor(n/d + 1/2) over ℚ:
it really is round-half-up of the exact quotient. -/
theorem roundDiv_eq_floor (n d : ℤ) (hd : 0 < d) :
    roundDiv n d = Int.floor ((n : ℚ) / d + 1/2) := by
  have h2d : (0 : ℤ) ≤ 2 * d := by omega
  rw [roundDiv, Int.fdiv_eq_ediv _ h2d]
  have htn : (((2 * d).toNat : ℕ) : ℚ) = ((2 * d : ℤ) : ℚ) := by
    exact_mod_cast congrArg (Int.cast : ℤ → ℚ) (Int.toNat_of_nonneg h2d)
  have hcast : ((n : ℚ) / d + 1/2) = ((2 * n + d : ℤ) : ℚ) / (((2 * d).toNat : ℕ) : ℚ) := by
    rw [htn]
    have hd0 : (d : ℚ) ≠ 0 := by
      exact_mod_cast (by omega : d ≠ 0)
    push_cast
    field_simp
    ring
  rw [hcast, Rat.floor_intCast_div_natCast]
  rw [Int.toNat_of_nonneg h2d]

/-- Every HTML-only check scores within `[0, maxScore]`. -/
theorem htmlChecks_score_bounds (d : Doc) (u : String) :
    ∀ c ∈ htmlChecks d u, 0 ≤ c.score ∧ c.score ≤ c.maxScore := by
  intro c hc
  simp only [htmlChecks, List.mem_cons, List.not_mem_nil, or_false] at hc
  rcases hc with rfl | rfl | rfl | rfl | rfl | rfl | rfl | rfl | rfl | rfl | rfl
    | rfl | rfl | rfl | rfl | rfl | rfl | rfl | rfl | rfl | rfl <;>
    constructor <;> dsimp only <;> split_ifs <;> omega

/-- The Domain Authority score lies in `[0, 5]` whenever the rank is not
negative. -/
theorem domainScore_bounds (dr : Option ℤ) (h : ∀ r, dr = some r → 0 ≤ r) :
    0 ≤ domainScore dr ∧ domainScore dr ≤ 5 := by
  rcases dr with - | r
  · exact ⟨le_refl 0, by norm_num [domainScore, truthy]⟩
  · have hr := h r rfl
    rw [domainScore]
    rcases ht : truthy (some r) with - | -
    · simp only [Bool.false_eq_true, if_false]
      norm_num
    · simp only [if_true]
      constructor
      · refine le_min (by norm_num) ?_
        rw [Option.getD_some, roundDiv, Int.fdiv_eq_ediv _ (by omega)]
        omega
      · exact min_le_left _ _

/-- The Organic Search Visibility score lies in `[0, 5]`. -/
theorem organicCheck_score_bounds (mm : SeoMetrics) :
    0 ≤ (organicCheck mm).score ∧ (organicCheck mm).score ≤ (organicCheck mm).maxScore := by
  constructor <;> dsimp only [organicCheck] <;> split_ifs <;> omega

/-- The Page Load Performance score lies in `[0, 4]`. -/
theorem perfChecks_score_bounds (mm : SeoMetrics) :
    ∀ c ∈ perfChecks mm, 0 ≤ c.score ∧ c.score ≤ c.maxScore := by
  obtain ⟨dr, ot, ok, ops, plt, av⟩ := mm
  intro c hc
  cases plt
  · simp [perfChecks] at hc
  · simp only [perfChecks, List.mem_singleton] at hc
    subst hc
    constructor <;> dsimp only <;> split_ifs <;> omega

/-- The On-Page SEO score lies in `[0, 5]` when the provider score is
within `[0, 109]`. -/
theorem onPageChecks_score_bounds (mm : SeoMetrics)
    (hop : ∀ s, mm.onPageScore = some s → 0 ≤ s ∧ s ≤ 109) :
    ∀ c ∈ onPageChecks mm, 0 ≤ c.score ∧ c.score ≤ c.maxScore := by
  obtain ⟨dr, ot, ok, ops, plt, av⟩ := mm
  intro c hc
  cases hops : ops
  · rw [hops] at hc
    simp [onPageChecks] at hc
  · rw [hops] at hc
    simp only [onPageChecks, List.mem_singleton] at hc
    subst hc
    obtain ⟨h0, h1⟩ := hop _ hops
    constructor <;> dsimp only <;>
      rw [roundDiv, Int.fdiv_eq_ediv _ (by omega)] <;> omega

/-- Every metrics-dependent check scores within `[0, maxScore]` provided
the domain rank is not negative and the on-page score does not exceed
109. -/
theorem metricsChecks_score_bounds (mm : SeoMetrics)
    (hdr : ∀ r, mm.domainRank = some r → 0 ≤ r)
    (hop : ∀ s, mm.onPageScore = some s → 0 ≤ s ∧ s ≤ 109) :
    ∀ c ∈ metricsChecks mm, 0 ≤ c.score ∧ c.score ≤ c.maxScore := by
  intro c hc
  simp only [metricsChecks, List.mem_append, List.mem_cons,
    List.not_mem_nil, or_false] at hc
  rcases hc with ((rfl | rfl) | hc) | hc
  · exact domainScore_bounds mm.domainRank hdr
  · exact organicCheck_score_bounds mm
  · exact perfChecks_score_bounds mm c hc
  · exact onPageChecks_score_bounds mm hop c hc

section Helpers

/-- Folding `acc + f c` over a list is the starting value plus the sum of
the mapped list (the shape of the two `reduce` calls in the aggregator). -/
theorem foldl_add_eq_sum (f : Check → ℤ) :
    ∀ (l : List Check) (a : ℤ), l.foldl (fun acc c => acc + f c) a = a + (l.map f).sum
  | [], a => by simp
  | c :: t, a => by
    simp only [List.foldl_cons, List.map_cons, List.sum_cons]
    rw [foldl_add_eq_sum f t (a + f c)]
    ring

/-- The check list of an analysis is exactly `runChecks` on the normalized
URL. -/
theorem mkAnalysis_checks (d : Doc) (url : String) (m : Option SeoMetrics) :
    (mkAnalysis d url m).checks = runChecks d (normalizeUrl url) m := rfl

/-- When the adapter reports `available`, the check list is the HTML
battery followed by the metrics block. -/
theorem checks_of_available (d : Doc) (url : String) (mm : SeoMetrics)
    (hav : mm.available = true) :
    (mkAnalysis d url (some mm)).checks
      = htmlChecks d (normalizeUrl url) ++ metricsChecks mm := by
  rw [mkAnalysis_checks, runChecks, hav]
  simp

/-- Without an available metrics record the check list is the HTML battery
alone. -/
theorem checks_of_unavailable (d : Doc) (url : String) (m : Option SeoMetrics)
    (h : m = none ∨ ∃ mm, m = some mm ∧ mm.available = false) :
    (mkAnalysis d url m).checks = htmlChecks d (normalizeUrl url) := by
  rcases h with h | ⟨mm, rfl, hav⟩
  · subst h
    rw [mkAnalysis_checks, runChecks]
    simp
  · rw [mkAnalysis_checks, runChecks, hav]
    simp

/-- The three summary buckets cover a list of checks exactly once when no
score is negative. -/
theorem mkSummary_partition (l : List Check) (h : ∀ c ∈ l, 0 ≤ c.score) :
    (mkSummary l).passed + (mkSummary l).failed + (mkSummary l).warnings = l.length := by
  induction l with
  | nil => rfl
  | cons c t ih =>
    have hc : (0 : ℤ) ≤ c.score := h c (by simp)
    have ht := ih (fun x hx => h x (by simp [hx]))
    simp only [mkSummary, List.filter_cons] at ht ⊢
    cases hp : c.passed
    · by_cases h0 : c.score = 0
      · simp_all
        omega
      · have h1 : (0 : ℤ) < c.score := lt_of_le_of_ne hc (Ne.symm h0)
        simp_all
        omega
    · simp_all
      omega

end Helpers

/-- C1: for every analysis the aggregate `overallScore` is the sum of
`score` over its checks, and `maxScore` the sum of `maxScore` over its
checks. -/
theorem overallScore_maxScore_are_sums (d : Doc) (url : String) (m : Option SeoMetrics) :
    (mkAnalysis d url m).overallScore
        = ((mkAnalysis d url m).checks.map (fun c => c.score)).sum ∧
      (mkAnalysis d url m).maxScore
        = ((mkAnalysis d url m).checks.map (fun c => c.maxScore)).sum := by
  constructor <;> simp [mkAnalysis, foldl_add_eq_sum]

/-- C2: the letter-grade mapping is total (every percentage yields one of
the six grades), characterized by the stated descending bands, and
monotonic; 90 maps to A+, 89 to A, 50 to D, 49 to F; and the display-text
scheme of the send-report route uses the Excellent/Good/Needs Work/Poor
bands at 90/70/40. -/
theorem grade_mapping_spec :
    (∀ p : ℤ, getGrade p = "A+" ∨ getGrade p = "A" ∨ getGrade p = "B" ∨
      getGrade p = "C" ∨ getGrade p = "D" ∨ getGrade p = "F") ∧
    (∀ p : ℤ, (getGrade p = "A+" ↔ 90 ≤ p) ∧ (getGrade p = "A" ↔ 80 ≤ p ∧ p < 90) ∧
      (getGrade p = "B" ↔ 70 ≤ p ∧ p < 80) ∧ (getGrade p = "C" ↔ 60 ≤ p ∧ p < 70) ∧
      (getGrade p = "D" ↔ 50 ≤ p ∧ p < 60) ∧ (getGrade p = "F" ↔ p < 50)) ∧
    (∀ p q : ℤ, p ≤ q → gradeRank (getGrade p) ≤ gradeRank (getGrade q)) ∧
    (getGrade 90 = "A+" ∧ getGrade 89 = "A" ∧ getGrade 50 = "D" ∧ getGrade 49 = "F") ∧
    (∀ p : ℤ, (SendReport.getGrade p = "Excellent" ↔ 90 ≤ p) ∧
      (SendReport.getGrade p = "Good" ↔ 70 ≤ p ∧ p < 90) ∧
      (SendReport.getGrade p = "Needs Work" ↔ 40 ≤ p ∧ p < 70) ∧
      (SendReport.getGrade p = "Poor" ↔ p < 40)) := by
  refine ⟨?_, ?_, ?_, ?_, ?_⟩
  · intro p
    unfold getGrade
    split_ifs <;> simp
  · intro p
    unfold getGrade
    split_ifs <;> simp_all <;> omega
  · intro p q hpq
    unfold getGrade
    split_ifs <;> simp_all [gradeRank] <;> omega
  · refine ⟨by decide, by decide, by decide, by decide⟩
  · intro p
    unfold SendReport.getGrade
    split_ifs <;> simp_all <;> omega

/-- Witness for C2 at concrete percentages: 90 maps to A+ and the mapping
is monotone from 55 to 85. -/
theorem grade_mapping_spec_witness :
    getGrade 90 = "A+" ∧ gradeRank (getGrade 55) ≤ gradeRank (getGrade 85) :=
  ⟨grade_mapping_spec.2.2.2.1.1, grade_mapping_spec.2.2.1 55 85 (by decide)⟩

/-- C3, counterexample: with an available metrics record whose domain rank
is 700, the Domain Authority check is passed with score 4 of 5, so it lies
in both the claimed "passed" bucket and the claimed "warnings" bucket
(`0 < score < maxScore`): one check satisfies both predicates, and the
route's warnings count (1, the Paragraph Length check) differs from the
number of checks with `0 < score < maxScore` (2). -/
theorem summary_buckets_cex :
    ((mkAnalysis docNil "example.com" (some metricsRank700)).checks.countP
        (fun c => c.passed && decide (0 < c.score) && decide (c.score < c.maxScore))) = 1 ∧
    (mkAnalysis docNil "example.com" (some metricsRank700)).summary.warnings = 1 ∧
    ((mkAnalysis docNil "example.com" (some metricsRank700)).checks.countP
        (fun c => decide (0 < c.score) && decide (c.score < c.maxScore))) = 2 := by
  refine ⟨by decide, by decide, by decide⟩

/-- C3, amended: with the buckets as the route computes them — passed:
`passed == true`; failed: `passed == false` and `score == 0`; warnings:
`passed == false` and `score > 0` — the three counts add up to the number
of checks and every check lies in exactly one bucket, provided no score is
negative. -/
theorem summary_partition_amended (d : Doc) (url : String) (m : Option SeoMetrics)
    (h : ((mkAnalysis d url m).checks.all (fun c => decide (0 ≤ c.score))) = true) :
    (mkAnalysis d url m).summary.passed + (mkAnalysis d url m).summary.failed
        + (mkAnalysis d url m).summary.warnings = (mkAnalysis d url m).checks.length ∧
    ∀ c ∈ (mkAnalysis d url m).checks,
      (c.passed = true ∧ ¬(c.passed = false ∧ c.score = 0) ∧
        ¬(c.passed = false ∧ 0 < c.score)) ∨
      (¬(c.passed = true) ∧ (c.passed = false ∧ c.score = 0) ∧
        ¬(c.passed = false ∧ 0 < c.score)) ∨
      (¬(c.passed = true) ∧ ¬(c.passed = false ∧ c.score = 0) ∧
        (c.passed = false ∧ 0 < c.score)) := by
  have h' : ∀ c ∈ (mkAnalysis d url m).checks, 0 ≤ c.score := by
    intro c hc
    have := (List.all_eq_true.mp h) c hc
    simpa using this
  constructor
  · exact mkSummary_partition _ h'
  · intro c hc
    have hcs := h' c hc
    cases hp : c.passed
    · by_cases h0 : c.score = 0
      · right; left
        refine ⟨by simp, ⟨rfl, h0⟩, ?_⟩
        rintro ⟨-, hlt⟩
        omega
      · right; right
        refine ⟨by simp, ?_, rfl, by omega⟩
        rintro ⟨-, h0c⟩
        exact h0 h0c
    · left
      refine ⟨rfl, ?_, ?_⟩ <;> rintro ⟨hf, -⟩ <;> simp_all

/-- Witness for C3 (amended) at the bare document with no metrics. -/
theorem summary_partition_amended_witness :
    (mkAnalysis docNil "example.com" none).summary.passed
        + (mkAnalysis docNil "example.com" none).summary.failed
        + (mkAnalysis docNil "example.com" none).summary.warnings
      = (mkAnalysis docNil "example.com" none).checks.length :=
  (summary_partition_amended docNil "example.com" none (by decide)).1

/-- Removing the recommendation exactly when the guard flag holds. -/
theorem recUnless_isNone (b : Bool) (msg : String) : (recUnless b msg).isNone = b := by
  cases b <;> rfl

/-- The `!flag ? msg : undefined` recommendation pattern of the organic,
performance and on-page checks. -/
theorem isNone_if_not (b : Bool) (msg : String) :
    (if !b then some msg else none : Option String).isNone = b := by
  cases b <;> rfl

/-- The Domain Authority recommendation is absent exactly when the score
reaches the passed threshold 3. -/
theorem isNone_if_lt_three (n : ℤ) (msg : String) :
    (if n < 3 then some msg else none : Option String).isNone = decide (3 ≤ n) := by
  by_cases h : n < 3
  · simp only [if_pos h, Option.isNone_some]
    exact (decide_eq_false (by omega)).symm
  · simp only [if_neg h, Option.isNone_none]
    exact (decide_eq_true (by omega)).symm

/-- Every HTML-only check carries a recommendation exactly when it is not
passed. -/
theorem htmlChecks_rec (d : Doc) (u : String) :
    ∀ c ∈ htmlChecks d u, c.recommendation.isNone = c.passed := by
  intro c hc
  simp only [htmlChecks, List.mem_cons, List.not_mem_nil, or_false] at hc
  rcases hc with rfl | rfl | rfl | rfl | rfl | rfl | rfl | rfl | rfl | rfl | rfl
    | rfl | rfl | rfl | rfl | rfl | rfl | rfl | rfl | rfl | rfl <;>
    simp [recUnless_isNone]

/-- The Page Load Performance recommendation is absent exactly when the
check is passed. -/
theorem perfChecks_rec (mm : SeoMetrics) :
    ∀ c ∈ perfChecks mm, c.recommendation.isNone = c.passed := by
  obtain ⟨dr, ot, ok, ops, plt, av⟩ := mm
  intro c hc
  cases plt
  · simp [perfChecks] at hc
  · simp only [perfChecks, List.mem_singleton] at hc
    subst hc
    exact isNone_if_not _ _

/-- The On-Page SEO Score recommendation is absent exactly when the check
is passed. -/
theorem onPageChecks_rec (mm : SeoMetrics) :
    ∀ c ∈ onPageChecks mm, c.recommendation.isNone = c.passed := by
  obtain ⟨dr, ot, ok, ops, plt, av⟩ := mm
  intro c hc
  cases ops
  · simp [onPageChecks] at hc
  · simp only [onPageChecks, List.mem_singleton] at hc
    subst hc
    exact isNone_if_not _ _

/-- Every metrics-dependent check carries a recommendation exactly when it
is not passed. -/
theorem metricsChecks_rec (mm : SeoMetrics) :
    ∀ c ∈ metricsChecks mm, c.recommendation.isNone = c.passed := by
  intro c hc
  simp only [metricsChecks, List.mem_append, List.mem_cons,
    List.not_mem_nil, or_false] at hc
  rcases hc with ((rfl | rfl) | hc) | hc
  · exact isNone_if_lt_three _ _
  · exact isNone_if_not _ _
  · exact perfChecks_rec mm c hc
  · exact onPageChecks_rec mm c hc

/-- C4, counterexample: with an available metrics record whose domain rank
is 700, the Domain Authority check scores 4 of 5 yet has no
recommendation, so "recommendation present iff score < maxScore" fails. -/
theorem recommendation_iff_cex :
    ((mkAnalysis docNil "example.com" (some metricsRank700)).checks.any
      (fun c => decide (c.score < c.maxScore) && c.recommendation.isNone)) = true := by
  decide

/-- C4, amended: every check of every analysis carries a recommendation
exactly when it is not passed (for the HTML-only checks this coincides
with `score < maxScore`; the metrics-dependent checks tie it to their
passed thresholds instead). -/
theorem recommendation_iff_not_passed (d : Doc) (url : String) (m : Option SeoMetrics) :
    ((mkAnalysis d url m).checks.all
      (fun c => c.recommendation.isNone == c.passed)) = true := by
  rw [List.all_eq_true]
  intro c hc
  rw [mkAnalysis_checks] at hc
  rcases m with - | mm
  · simp only [runChecks, List.append_nil] at hc
    simp [htmlChecks_rec d (normalizeUrl url) c hc]
  · rcases hav : mm.available with - | -
    · simp only [runChecks, hav, Bool.false_eq_true, if_false, List.append_nil] at hc
      simp [htmlChecks_rec d (normalizeUrl url) c hc]
    · simp only [runChecks, hav, if_true] at hc
      rw [List.mem_append] at hc
      rcases hc with hc | hc
      · simp [htmlChecks_rec d (normalizeUrl url) c hc]
      · simp [metricsChecks_rec mm c hc]

/-- C5, counterexample: with an available metrics record whose on-page
score is 120 (the route never validates the provider value), the On-Page
SEO Score check scores round(120/20) = 6, exceeding its maxScore of 5. -/
theorem score_bounds_cex :
    ((mkAnalysis docNil "example.com" (some metricsOnPage120)).checks.any
      (fun c => decide (c.maxScore < c.score))) = true := by
  decide

/-- C5, amended: every check of every analysis satisfies
`0 <= score <= maxScore` provided the defined metric values stay in the
provider's ranges: `domainRank >= 0`, and `0 <= onPageScore <= 109`. -/
theorem score_bounds_amended (d : Doc) (url : String) (m : Option SeoMetrics)
    (hdr : ∀ mm, m = some mm → ∀ r, mm.domainRank = some r → 0 ≤ r)
    (hop : ∀ mm, m = some mm → ∀ s, mm.onPageScore = some s → 0 ≤ s ∧ s ≤ 109) :
    ((mkAnalysis d url m).checks.all
      (fun c => decide (0 ≤ c.score) && decide (c.score ≤ c.maxScore))) = true := by
  rw [List.all_eq_true]
  intro c hc
  rw [mkAnalysis_checks] at hc
  have hbounds : 0 ≤ c.score ∧ c.score ≤ c.maxScore := by
    rcases m with - | mm
    · simp only [runChecks, List.append_nil] at hc
      exact htmlChecks_score_bounds d (normalizeUrl url) c hc
    · rcases hav : mm.available with - | -
      · simp only [runChecks, hav, Bool.false_eq_true, if_false, List.append_nil] at hc
        exact htmlChecks_score_bounds d (normalizeUrl url) c hc
      · simp only [runChecks, hav, if_true] at hc
        rw [List.mem_append] at hc
        rcases hc with hc | hc
        · exact htmlChecks_score_bounds d (normalizeUrl url) c hc
        · exact metricsChecks_score_bounds mm (hdr mm rfl) (hop mm rfl) c hc
  simp [hbounds.1, hbounds.2]

/-- Witness for C5 (amended) with a domain rank of 1000 and all other
metrics undefined. -/
theorem score_bounds_amended_witness :
    ((mkAnalysis docNil "example.com" (some metricsRank1000)).checks.all
      (fun c => decide (0 ≤ c.score) && decide (c.score ≤ c.maxScore))) = true :=
  score_bounds_amended docNil "example.com" (some metricsRank1000)
    (by intro mm h r hr
        cases h
        cases hr
        omega)
    (by intro mm h s hs
        cases h
        cases hs)

/-- The names of the 21 HTML-only checks, in order. -/
theorem htmlChecks_names (d : Doc) (u : String) :
    (htmlChecks d u).map (fun c => c.name) =
      ["JSON-LD Schema Present", "FAQ Schema", "Article/HowTo Schema",
       "Author/Organization Schema", "Question-Based Headings", "Heading Hierarchy",
       "Structured Lists", "Paragraph Length", "Quick Summary / Key Takeaways",
       "Author Attribution", "Author Bio/Credentials", "External Citations",
       "Publication Date", "Meta Description", "Page Title Optimization",
       "Mobile Viewport", "Canonical URL", "HTTPS Security",
       "Definition-Style Content", "Step-by-Step Instructions",
       "Statistics & Data Points"] := rfl

/-- The names of the metrics-dependent checks: the first two are always
present, the last two only when their metric is defined. -/
theorem metricsChecks_names (mm : SeoMetrics) :
    (metricsChecks mm).map (fun c => c.name) =
      ["Domain Authority", "Organic Search Visibility"]
        ++ (if mm.pageLoadTime.isSome then ["Page Load Performance"] else [])
        ++ (if mm.onPageScore.isSome then ["On-Page SEO Score"] else []) := by
  obtain ⟨dr, ot, ok, ops, plt, av⟩ := mm
  cases plt <;> cases ops <;> rfl

/-- C6, counterexample: with an available metrics record in which every
numeric field is undefined, the Domain Authority and Organic Search
Visibility checks are still included (scoring 0), so "included iff the
required metric is defined" fails. -/
theorem metrics_inclusion_cex :
    metricsAllUndefined.domainRank = none ∧
    metricsAllUndefined.organicKeywords = none ∧
    (((mkAnalysis docNil "example.com" (some metricsAllUndefined)).checks.map
        (fun c => c.name)).count "Domain Authority") = 1 ∧
    (((mkAnalysis docNil "example.com" (some metricsAllUndefined)).checks.map
        (fun c => c.name)).count "Organic Search Visibility") = 1 := by
  refine ⟨rfl, rfl, by decide, by decide⟩

/-- C6, amended: the 21 HTML-only checks are always present (a prefix of
the check list); with no available metrics the list is exactly those
checks; with available metrics, Domain Authority and Organic Search
Visibility are always appended regardless of whether their metric is
defined, while Page Load Performance and On-Page SEO Score are appended
exactly when `pageLoadTime` respectively `onPageScore` is defined. -/
theorem metrics_inclusion_amended (d : Doc) (url : String) (m : Option SeoMetrics) :
    htmlChecks d (normalizeUrl url) <+: (mkAnalysis d url m).checks ∧
    ((m = none ∨ ∃ mm, m = some mm ∧ mm.available = false) →
      (mkAnalysis d url m).checks = htmlChecks d (normalizeUrl url)) ∧
    (∀ mm, m = some mm → mm.available = true →
      ((mkAnalysis d url m).checks.map (fun c => c.name)).count "Domain Authority" = 1 ∧
      ((mkAnalysis d url m).checks.map (fun c => c.name)).count "Organic Search Visibility" = 1 ∧
      ((mkAnalysis d url m).checks.map (fun c => c.name)).count "Page Load Performance"
        = (if mm.pageLoadTime.isSome then 1 else 0) ∧
      ((mkAnalysis d url m).checks.map (fun c => c.name)).count "On-Page SEO Score"
        = (if mm.onPageScore.isSome then 1 else 0)) := by
  refine ⟨?_, checks_of_unavailable d url m, ?_⟩
  · rw [mkAnalysis_checks]
    exact List.prefix_append _ _
  · rintro mm rfl hav
    rw [checks_of_available d url mm hav, List.map_append, htmlChecks_names,
      metricsChecks_names]
    cases hpl : mm.pageLoadTime <;> cases hop : mm.onPageScore <;>
      simp only [Option.isSome_none, Option.isSome_some, if_true, if_false,
        Bool.false_eq_true, Bool.true_eq_false] <;>
      refine ⟨by decide, by decide, by decide, by decide⟩

/-- Witness for C6 (amended) with available metrics defining only the
domain rank: the performance and on-page checks are absent. -/
theorem metrics_inclusion_amended_witness :
    (((mkAnalysis docNil "example.com" (some metricsRank700)).checks.map
        (fun c => c.name)).count "Domain Authority" = 1 ∧
     ((mkAnalysis docNil "example.com" (some metricsRank700)).checks.map
        (fun c => c.name)).count "Organic Search Visibility" = 1 ∧
     ((mkAnalysis docNil "example.com" (some metricsRank700)).checks.map
        (fun c => c.name)).count "Page Load Performance"
       = (if metricsRank700.pageLoadTime.isSome then 1 else 0) ∧
     ((mkAnalysis docNil "example.com" (some metricsRank700)).checks.map
        (fun c => c.name)).count "On-Page SEO Score"
       = (if metricsRank700.onPageScore.isSome then 1 else 0)) :=
  (metrics_inclusion_amended docNil "example.com" (some metricsRank700)).2.2
    metricsRank700 rfl rfl

/-- No HTML-only check is named like the organic-visibility check. -/
theorem htmlChecks_filter_organic (d : Doc) (u : String) :
    (htmlChecks d u).filter (fun c => c.name == "Organic Search Visibility") = [] := rfl

/-- No HTML-only check is named like the domain-authority check. -/
theorem htmlChecks_filter_domain (d : Doc) (u : String) :
    (htmlChecks d u).filter (fun c => c.name == "Domain Authority") = [] := rfl

/-- Among the metrics-dependent checks exactly the organic check carries
its name. -/
theorem metricsChecks_filter_organic (mm : SeoMetrics) :
    (metricsChecks mm).filter (fun c => c.name == "Organic Search Visibility")
      = [organicCheck mm] := by
  obtain ⟨dr, ot, ok, ops, plt, av⟩ := mm
  cases plt <;> cases ops <;> rfl

/-- Among the metrics-dependent checks exactly the domain check carries
its name. -/
theorem metricsChecks_filter_domain (mm : SeoMetrics) :
    (metricsChecks mm).filter (fun c => c.name == "Domain Authority")
      = [domainCheck mm] := by
  obtain ⟨dr, ot, ok, ops, plt, av⟩ := mm
  cases plt <;> cases ops <;> rfl

/-- The organic check's score is the banding function of its keyword
count. -/
theorem organicCheck_score_eq_band (mm : SeoMetrics) :
    (organicCheck mm).score = organicBand mm.organicKeywords := by
  obtain ⟨dr, ot, ok, ops, plt, av⟩ := mm
  rcases ok with - | k
  · rfl
  · dsimp only [organicCheck, organicBand, truthy, Option.getD_some]
    by_cases hk : k = 0
    · subst hk
      decide
    · simp [hk]

/-- C7, counterexample: an available metrics record with a defined keyword
count of 0 yields an Organic Search Visibility score of 0, not the 1 the
banding claims for "any other defined value" (JavaScript truthiness treats
the defined 0 like undefined). -/
theorem organic_band_cex :
    metricsKeywords0.organicKeywords = some 0 ∧
    (((mkAnalysis docNil "example.com" (some metricsKeywords0)).checks.filter
        (fun c => c.name == "Organic Search Visibility")).map (fun c => c.score)) = [0] := by
  refine ⟨rfl, by decide⟩

/-- C7, amended: for every available metrics record the Organic Search
Visibility check scores by keyword count: more than 1000 gives 5, more
than 500 gives 4, more than 100 gives 3, more than 10 gives 2, any other
defined non-zero value gives 1, and zero or undefined gives 0; its
maxScore is 5. -/
theorem organic_band_amended (d : Doc) (url : String) (mm : SeoMetrics)
    (hav : mm.available = true) :
    (((mkAnalysis d url (some mm)).checks.filter
        (fun c => c.name == "Organic Search Visibility")).map
      (fun c => (c.score, c.maxScore))) = [(organicBand mm.organicKeywords, 5)] := by
  rw [checks_of_available d url mm hav, List.filter_append,
    htmlChecks_filter_organic, List.nil_append, metricsChecks_filter_organic]
  simp only [List.map_cons, List.map_nil, organicCheck_score_eq_band]
  rfl

/-- Witness for C7 (amended) at the defined-zero keyword count. -/
theorem organic_band_amended_witness :
    (((mkAnalysis docNil "example.com" (some metricsKeywords0)).checks.filter
        (fun c => c.name == "Organic Search Visibility")).map
      (fun c => (c.score, c.maxScore))) = [(organicBand metricsKeywords0.organicKeywords, 5)] :=
  organic_band_amended docNil "example.com" metricsKeywords0 rfl

/-- The Domain Authority score agrees with `min(5, round(rank/200))` for
every defined rank (at a defined rank of 0 the truthiness guard returns 0,
which the formula also yields). -/
theorem domainScore_eq_formula (r : ℤ) :
    domainScore (some r) = min 5 (roundDiv r 200) := by
  rw [domainScore]
  by_cases hr : r = 0
  · subst hr
    decide
  · have ht : truthy (some r) = true := by simp [truthy, hr]
    simp [ht]

/-- C8: for every available metrics record with a defined domain rank `r`,
the Domain Authority check's score is `min(5, round(r/200))` (with
JavaScript round-half-up, `roundDiv`). -/
theorem domain_authority_formula (d : Doc) (url : String) (mm : SeoMetrics) (r : ℤ)
    (hav : mm.available = true) (hdr : mm.domainRank = some r) :
    (((mkAnalysis d url (some mm)).checks.filter
        (fun c => c.name == "Domain Authority")).map (fun c => c.score))
      = [min 5 (roundDiv r 200)] := by
  rw [checks_of_available d url mm hav, List.filter_append,
    htmlChecks_filter_domain, List.nil_append, metricsChecks_filter_domain]
  simp only [List.map_cons, List.map_nil]
  rw [show (domainCheck mm).score = domainScore mm.domainRank from rfl, hdr,
    domainScore_eq_formula]

/-- Witness for C8: a domain rank of 1000 scores min(5, round(5)) = 5. -/
theorem domain_authority_formula_witness :
    (((mkAnalysis docNil "example.com" (some metricsRank1000)).checks.filter
        (fun c => c.name == "Domain Authority")).map (fun c => c.score)) = [5] := by
  rw [domain_authority_formula docNil "example.com" metricsRank1000 1000 rfl rfl]
  decide

/-- C9: the analyze endpoint's catch block replies 400 exactly for the
recognized axios failures — DNS resolution failure (ENOTFOUND), response
status 403 or 404, and timeout (ETIMEDOUT or ECONNABORTED) — and 500 for
every other failure; ENOTFOUND carries the domain-not-found message and a
403 response the access-denied message. -/
theorem error_classification (e : FetchError) :
    ((classifyAnalyzeError e).status = 400 ↔
      (e.isAxiosError = true ∧ (e.code = some "ENOTFOUND" ∨ e.responseStatus = some 403 ∨
        e.responseStatus = some 404 ∨ e.code = some "ETIMEDOUT" ∨
        e.code = some "ECONNABORTED"))) ∧
    ((classifyAnalyzeError e).status = 400 ∨ (classifyAnalyzeError e).status = 500) ∧
    (e.isAxiosError = true → e.code = some "ENOTFOUND" →
      (classifyAnalyzeError e).error = "Domain not found. Please check the URL.") ∧
    (e.isAxiosError = true → e.code ≠ some "ENOTFOUND" → e.responseStatus = some 403 →
      (classifyAnalyzeError e).error
        = "Access denied by the website. The site may be blocking automated requests.") := by
  obtain ⟨ax, code, rs⟩ := e
  unfold classifyAnalyzeError
  cases ax <;> split_ifs <;> simp_all

/-- Witness for C9 at a DNS failure and at a plain non-axios error. -/
theorem error_classification_witness :
    (classifyAnalyzeError ⟨true, some "ENOTFOUND", none⟩).status = 400 ∧
    (classifyAnalyzeError ⟨true, some "ENOTFOUND", none⟩).error
      = "Domain not found. Please check the URL." :=
  ⟨(error_classification ⟨true, some "ENOTFOUND", none⟩).1.mpr ⟨rfl, Or.inl rfl⟩,
   (error_classification ⟨true, some "ENOTFOUND", none⟩).2.2.1 rfl rfl⟩

/-- The HTML-only battery has 21 checks. -/
theorem htmlChecks_length (d : Doc) (u : String) : (htmlChecks d u).length = 21 := rfl

/-- The maxScores of the HTML-only battery, in order; they sum to 100. -/
theorem htmlChecks_maxScores (d : Doc) (u : String) :
    (htmlChecks d u).map (fun c => c.maxScore)
      = [8, 7, 5, 5, 8, 5, 5, 4, 3, 5, 5, 5, 5, 4, 4, 3, 2, 2, 5, 5, 5] := rfl

/-- Rounding `t * 100 / 100` returns `t`: when maxScore is 100 the
percentage is the overall score itself. -/
theorem percentageOf_hundred (t : ℤ) : percentageOf t 100 = t := by
  rw [percentageOf, roundDiv, Int.fdiv_eq_ediv _ (by omega)]
  omega

/-- C10, counterexample: with no metrics the analysis contains 21 checks,
not the 22 the claim states. -/
theorem html_only_count_cex :
    (mkAnalysis docNil "example.com" none).checks.length = 21 ∧
    (mkAnalysis docNil "example.com" none).checks.length ≠ 22 := by
  refine ⟨by decide, by decide⟩

/-- C10, amended: when the metrics provider is unavailable the analysis
contains exactly the 21 HTML-only checks, its maxScore is exactly 100, and
the derived percentage equals the overall score itself. -/
theorem html_only_analysis_amended (d : Doc) (url : String) (m : Option SeoMetrics)
    (h : m = none ∨ ∃ mm, m = some mm ∧ mm.available = false) :
    (mkAnalysis d url m).checks = htmlChecks d (normalizeUrl url) ∧
    (mkAnalysis d url m).checks.length = 21 ∧
    (mkAnalysis d url m).maxScore = 100 ∧
    percentageOf (mkAnalysis d url m).overallScore (mkAnalysis d url m).maxScore
      = (mkAnalysis d url m).overallScore := by
  have hc := checks_of_unavailable d url m h
  have e1 : (mkAnalysis d url m).maxScore
      = (mkAnalysis d url m).checks.foldl (fun acc c => acc + c.maxScore) 0 := rfl
  have hmax : (mkAnalysis d url m).maxScore = 100 := by
    rw [e1, foldl_add_eq_sum, zero_add, hc, htmlChecks_maxScores]
    decide
  refine ⟨hc, by rw [hc, htmlChecks_length], hmax, ?_⟩
  rw [hmax, percentageOf_hundred]

/-- Witness for C10 (amended) at the bare document with no metrics. -/
theorem html_only_analysis_amended_witness :
    (mkAnalysis docNil "example.com" none).checks
        = htmlChecks docNil (normalizeUrl "example.com") ∧
    (mkAnalysis docNil "example.com" none).checks.length = 21 ∧
    (mkAnalysis docNil "example.com" none).maxScore = 100 ∧
    percentageOf (mkAnalysis docNil "example.com" none).overallScore
        (mkAnalysis docNil "example.com" none).maxScore
      = (mkAnalysis docNil "example.com" none).overallScore :=
  html_only_analysis_amended docNil "example.com" none (Or.inl rfl)

end GeoAudit
